import Mathlib

/-!
Shallow embedding of `src/sage/dynamics/interval_exchanges/constructors.py`,
the factory/validation layer for interval-exchange permutations.

Conventions of the embedding:

* Python `ValueError` / `TypeError` become the two constructors of `PyError`.
  In the spec's taxonomy, `FormatError` and `ValidationError` are both raised
  as Python `ValueError` (with distinct messages), and `TypeConstraintError`
  is raised as Python `TypeError`.
* The concrete permutation classes (`labelled.py`, `reduced.py`,
  `template.py`) are not part of the repository snapshot; following the
  spec they are modelled as a value type `ValidatedPermutation` carrying the
  variant tag (kind, reduced), the row pair, the flip list and the resolved
  alphabet.  `copy` is the identity on values (value semantics).
* Fallible code returns `Except PyError`.
-/

/-- Python exception kinds used by the module: `valueError` covers the spec's
FormatError and ValidationError, `typeError` covers TypeConstraintError. -/
inductive PyError where
  | valueError (msg : String)
  | typeError (msg : String)
deriving DecidableEq, Repr

/-- The two families of permutation objects: interval-exchange ("IET")
permutations and linear-involution ("LI", generalized) permutations. -/
inductive PermKind where
  | exchange
  | generalized
deriving DecidableEq, Repr

/-- Modelled from the spec: `ValidatedPermutation` (spec section 3), the
opaque object produced by the eight concrete variant constructors of the
external modules `labelled.py` and `reduced.py`.  Per the spec's
`VariantTag` it is determined by reduction, flip and kind, together with
the row pair (`.list()` round-trips to it), the flip set and the alphabet
(supplied by caller or inferred).  Flippedness of the variant is equivalent
to a non-empty flip list. -/
structure ValidatedPermutation (α : Type) where
  kind : PermKind
  reduced : Bool
  rows : List α × List α
  flips : List α
  alphabet : List α
deriving DecidableEq

/-- Modelled from the spec: the `LabelAlphabet` is "supplied by caller or
inferred" from the letters of the row pair, in order of appearance. -/
def resolveAlphabet {α : Type} [DecidableEq α]
    (rows : List α × List α) (alpha : Option (List α)) : List α :=
  alpha.getD ((rows.1 ++ rows.2).dedup)

/-- Modelled from the spec: `labelled.LabelledPermutationIET`, the unflipped
labelled exchange variant constructor, accepting (rows, alphabet). -/
def LabelledPermutationIET {α : Type} [DecidableEq α]
    (rows : List α × List α) (alpha : Option (List α)) : ValidatedPermutation α :=
  ⟨PermKind.exchange, false, rows, [], resolveAlphabet rows alpha⟩

/-- Modelled from the spec: `reduced.ReducedPermutationIET`, the unflipped
reduced exchange variant constructor. -/
def ReducedPermutationIET {α : Type} [DecidableEq α]
    (rows : List α × List α) (alpha : Option (List α)) : ValidatedPermutation α :=
  ⟨PermKind.exchange, true, rows, [], resolveAlphabet rows alpha⟩

/-- Modelled from the spec: `labelled.FlippedLabelledPermutationIET`. -/
def FlippedLabelledPermutationIET {α : Type} [DecidableEq α]
    (rows : List α × List α) (alpha : Option (List α)) (flips : List α) :
    ValidatedPermutation α :=
  ⟨PermKind.exchange, false, rows, flips, resolveAlphabet rows alpha⟩

/-- Modelled from the spec: `reduced.FlippedReducedPermutationIET`. -/
def FlippedReducedPermutationIET {α : Type} [DecidableEq α]
    (rows : List α × List α) (alpha : Option (List α)) (flips : List α) :
    ValidatedPermutation α :=
  ⟨PermKind.exchange, true, rows, flips, resolveAlphabet rows alpha⟩

/-- Modelled from the spec: `labelled.LabelledPermutationLI`, the unflipped
labelled generalized (linear-involution) variant constructor. -/
def LabelledPermutationLI {α : Type} [DecidableEq α]
    (rows : List α × List α) (alpha : Option (List α)) : ValidatedPermutation α :=
  ⟨PermKind.generalized, false, rows, [], resolveAlphabet rows alpha⟩

/-- Modelled from the spec: `reduced.ReducedPermutationLI`. -/
def ReducedPermutationLI {α : Type} [DecidableEq α]
    (rows : List α × List α) (alpha : Option (List α)) : ValidatedPermutation α :=
  ⟨PermKind.generalized, true, rows, [], resolveAlphabet rows alpha⟩

/-- Modelled from the spec: `labelled.FlippedLabelledPermutationLI`. -/
def FlippedLabelledPermutationLI {α : Type} [DecidableEq α]
    (rows : List α × List α) (alpha : Option (List α)) (flips : List α) :
    ValidatedPermutation α :=
  ⟨PermKind.generalized, false, rows, flips, resolveAlphabet rows alpha⟩

/-- Modelled from the spec: `reduced.FlippedReducedPermutationLI`. -/
def FlippedReducedPermutationLI {α : Type} [DecidableEq α]
    (rows : List α × List α) (alpha : Option (List α)) (flips : List α) :
    ValidatedPermutation α :=
  ⟨PermKind.generalized, true, rows, flips, resolveAlphabet rows alpha⟩

/-- Modelled from the spec: `template.PermutationIET(rows, reduced, flips,
alphabet)`, the exchange-variant dispatcher imported at the top of
`constructors.py`: it builds the exchange variant selected by the
`reduced` flag and the (non-)emptiness of `flips` (spec section 3,
`VariantTag`), from the given row pair. -/
def PermutationIET {α : Type} [DecidableEq α] (rows : List α × List α)
    (reduced : Bool) (flips : List α) (alpha : Option (List α)) :
    ValidatedPermutation α :=
  if reduced then
    if flips = [] then ReducedPermutationIET rows alpha
    else FlippedReducedPermutationIET rows alpha flips
  else
    if flips = [] then LabelledPermutationIET rows alpha
    else FlippedLabelledPermutationIET rows alpha flips

/-- Modelled from the spec: `template.PermutationLI`, the generalized-variant
dispatcher, mirror of `PermutationIET`. -/
def PermutationLI {α : Type} [DecidableEq α] (rows : List α × List α)
    (reduced : Bool) (flips : List α) (alpha : Option (List α)) :
    ValidatedPermutation α :=
  if reduced then
    if flips = [] then ReducedPermutationLI rows alpha
    else FlippedReducedPermutationLI rows alpha flips
  else
    if flips = [] then LabelledPermutationLI rows alpha
    else FlippedLabelledPermutationLI rows alpha flips

/-- Modelled from the spec: the `.reduced()` operation of a permutation
object "returns the reduced counterpart" (spec section 6). -/
def reducedOf {α : Type} (p : ValidatedPermutation α) : ValidatedPermutation α :=
  { p with reduced := true }

/-- Argument to the two permutation factories: either an existing permutation
object (the `isinstance(..., LabelledPermutation)` /
`isinstance(..., ReducedPermutation)` fast paths, membership decided by the
`reduced` tag of the class family) or fresh two-row data, already
normalized by `_two_lists`. -/
inductive PermArg (α : Type) where
  | obj (p : ValidatedPermutation α)
  | fresh (a : List α × List α)

/-- Embedding of `Permutation` (`constructors.py` lines 236-420), the
exchange-permutation factory.  `reduction` is the already type-checked
`reduced` keyword (`none` when absent), `flips` the flip list, `alpha` the
`alphabet` keyword. -/
def buildExchange {α : Type} [DecidableEq α] (arg : PermArg α)
    (reduction : Option Bool) (flips : List α) (alpha : Option (List α)) :
    Except PyError (ValidatedPermutation α) :=
  match arg with
  | PermArg.obj p =>
    if p.reduced = false then
      -- isinstance(args, LabelledPermutation)
      if flips = [] then
        if reduction = some true then Except.ok (reducedOf p)
        else Except.ok p  -- copy(args)
      else
        Except.ok (PermutationIET p.rows
          (decide (reduction = none ∨ reduction = some false)) flips alpha)
    else
      -- isinstance(args, ReducedPermutation)
      if flips = [] then
        if reduction = some false then
          Except.ok (PermutationIET p.rows true [] none)
        else Except.ok p  -- copy(args)
      else
        Except.ok (PermutationIET p.rows
          (decide (reduction = none ∨ reduction = some true)) flips alpha)
  | PermArg.fresh a =>
    if ∃ f ∈ flips, f ∉ a.1 ++ a.2 then
      Except.error (PyError.valueError "flips contains not valid letters")
    else if ∃ x ∈ a.1 ++ a.2, a.1.count x ≠ 1 ∨ a.2.count x ≠ 1 then
      Except.error (PyError.valueError "letters must appear once in each interval")
    else if reduction = some true then
      if flips = [] then Except.ok (ReducedPermutationIET a alpha)
      else Except.ok (FlippedReducedPermutationIET a alpha flips)
    else
      if flips = [] then Except.ok (LabelledPermutationIET a alpha)
      else Except.ok (FlippedLabelledPermutationIET a alpha flips)

/-- Embedding of the admissibility loop of `GeneralizedPermutation`
(`constructors.py` lines 580-586): for each distinct letter (in the order of
first appearance, one faithful instance of the unspecified Python set
iteration order), if its current count in the first residual row is one,
delete its first occurrence from both residual rows. -/
def stripSingles {α : Type} [DecidableEq α] :
    List α → List α → List α → List α × List α
  | [], b0, b1 => (b0, b1)
  | x :: rest, b0, b1 =>
    if b0.count x = 1 then stripSingles rest (b0.erase x) (b1.erase x)
    else stripSingles rest b0 b1

/-- Embedding of `GeneralizedPermutation` (`constructors.py` lines 422-602),
the generalized-permutation (linear-involution) factory. -/
def buildGeneralized {α : Type} [DecidableEq α] (arg : PermArg α)
    (reduction : Option Bool) (flips : List α) (alpha : Option (List α)) :
    Except PyError (ValidatedPermutation α) :=
  match arg with
  | PermArg.obj p =>
    if p.reduced = false then
      if flips = [] then
        if reduction = some true then Except.ok (reducedOf p)
        else Except.ok p  -- copy(args)
      else
        Except.ok (PermutationLI p.rows
          (decide (reduction = none ∨ reduction = some false)) flips alpha)
    else
      if flips = [] then
        if reduction = some false then
          Except.ok (PermutationLI p.rows true [] none)
        else Except.ok p  -- copy(args)
      else
        Except.ok (PermutationLI p.rows
          (decide (reduction = none ∨ reduction = some true)) flips alpha)
  | PermArg.fresh a =>
    if ∃ f ∈ flips, f ∉ a.1 ++ a.2 then
      Except.error (PyError.typeError "The flip list is not valid")
    else if ∃ x ∈ a.1 ++ a.2, (a.1 ++ a.2).count x ≠ 2 then
      Except.error (PyError.valueError "Letters must reappear twice")
    else
      let r := stripSingles (a.1 ++ a.2).dedup a.1 a.2
      if r.1 = [] ∧ r.2 = [] then
        buildExchange (PermArg.fresh a) reduction flips alpha
      else if r.1 = [] ∨ r.2 = [] then
        Except.error (PyError.valueError "There is no admissible length")
      else if reduction.getD false then
        if flips = [] then Except.ok (ReducedPermutationLI a alpha)
        else Except.ok (FlippedReducedPermutationLI a alpha flips)
      else
        if flips = [] then Except.ok (LabelledPermutationLI a alpha)
        else Except.ok (FlippedLabelledPermutationLI a alpha flips)

/-- Split a character list at every character satisfying `p`, keeping empty
pieces; `acc` is the (reversed) piece under construction. -/
def splitCharsAux (p : Char → Bool) : List Char → List Char → List (List Char)
  | [], acc => [acc.reverse]
  | c :: cs, acc =>
    if p c then acc.reverse :: splitCharsAux p cs []
    else splitCharsAux p cs (c :: acc)

/-- Python `str.split(sep)` for a one-character separator: split at every
occurrence, keeping empty pieces (`"".split('\n') == ['']`). -/
def pySplitOn (p : Char → Bool) (s : String) : List String :=
  (splitCharsAux p s.toList []).map (fun cs => String.mk cs)

/-- Python `str.split('\n')`: split on each newline, keeping empty pieces. -/
def pySplitNL (s : String) : List String :=
  pySplitOn (fun c => c = '\n') s

/-- Python `str.split()` with no argument: split on whitespace and drop the
empty pieces. -/
def pySplitWS (s : String) : List String :=
  (pySplitOn Char.isWhitespace s).filter (fun t => t ≠ "")

/-- One element of a two-element container passed to `_two_lists`: either a
string (split on whitespace) or a sequence of tokens (copied as-is). -/
inductive RowSpec where
  | ofString (s : String)
  | ofList (l : List String)

/-- The row a `RowSpec` denotes (`constructors.py` lines 228-232). -/
def rowOf : RowSpec → List String
  | RowSpec.ofString s => pySplitWS s
  | RowSpec.ofList l => l

/-- Input shapes of `_two_lists` exercised by the claims: a single string, or
a container of length two.  (The group-theoretic-permutation and length-one
container branches produce the same kind of two-row output and are not
touched by any claim.) -/
inductive TwoArg where
  | ofString (s : String)
  | ofPair (r0 r1 : RowSpec)

/-- Embedding of `_two_lists` (`constructors.py` lines 146-234) on the input
shapes of `TwoArg`: a string is split on the line separator and must yield
exactly two lines (else `ValueError "your chain must contain two lines"`),
each line then split on whitespace; a two-element container has each element
handled by `rowOf`. -/
def two_lists : TwoArg → Except PyError (List String × List String)
  | TwoArg.ofString s =>
    match pySplitNL s with
    | [l0, l1] => Except.ok (pySplitWS l0, pySplitWS l1)
    | _ => Except.error (PyError.valueError "your chain must contain two lines")
  | TwoArg.ofPair r0 r1 => Except.ok (rowOf r0, rowOf r1)

/-- A value appearing in a length vector: either a real value (modelled as a
rational) or a token, such as the string `'rho'`, on which Python's
`float()` raises `ValueError`. -/
inductive LengthEntry where
  | num (q : ℚ)
  | nonNumeric (s : String)
deriving DecidableEq

/-- Python `float(x)` on a `LengthEntry`: `none` models the `ValueError`
raised on a non-numeric value. -/
def floatOf : LengthEntry → Option ℚ
  | LengthEntry.num q => some q
  | LengthEntry.nonNumeric _ => none

/-- Python `repr` of a length entry, used in the coercion error message;
only non-numeric entries ever reach it. -/
def reprEntry : LengthEntry → String
  | LengthEntry.num q => toString q
  | LengthEntry.nonNumeric s => "'" ++ s ++ "'"

/-- Embedding of the per-entry loop of `IntervalExchangeTransformation`
(`constructors.py` lines 925-932): coerce each entry to a float (failure
raises `TypeError "unable to convert {!r} to a float"`), then require the
value strictly positive (else `ValueError "lengths must be positive"`);
the first offending entry raises. -/
def checkLengths : List LengthEntry → Except PyError Unit
  | [] => Except.ok ()
  | x :: rest =>
    match floatOf x with
    | none =>
      Except.error (PyError.typeError
        ("unable to convert " ++ reprEntry x ++ " to a float"))
    | some y =>
      if y ≤ 0 then Except.error (PyError.valueError "lengths must be positive")
      else checkLengths rest

/-- The `lengths` argument of `IntervalExchangeTransformation`: a mapping
from letters to values, or a positional sequence of values. -/
inductive LengthsArg (α : Type) where
  | dict (entries : List (α × LengthEntry))
  | seq (entries : List LengthEntry)

/-- Modelled from the spec: the external dynamical-object constructor
`iet.IntervalExchangeTransformation` ("_IET"), accepting a validated
permutation and the length vector (spec section 6); the source passes the
uncoerced entry list. -/
structure IETObj (α : Type) where
  perm : ValidatedPermutation α
  lengths : List LengthEntry
deriving DecidableEq

/-- Resolution of the `lengths` argument (`constructors.py` lines 914-920):
a mapping becomes a positional vector of `len(p)` zeros with each value
placed at the alphabet rank of its key; any other sequence is copied.
(A mapping key outside the alphabet would raise in `alphabet.rank`; the
embedding's out-of-range `List.set` is a no-op, a case no claim touches.) -/
def resolveLengths {α : Type} [DecidableEq α] (p : ValidatedPermutation α) :
    LengthsArg α → List LengthEntry
  | LengthsArg.dict entries =>
    entries.foldl
      (fun l e => l.set (p.alphabet.indexOf e.1) e.2)
      (List.replicate p.rows.1.length (LengthEntry.num 0))
  | LengthsArg.seq entries => entries

/-- Embedding of `IntervalExchangeTransformation` (`constructors.py` lines
827-934): reject flipped permutations, use an unflipped labelled exchange
permutation as-is and coerce anything else through
`Permutation(..., reduced=False)`, resolve the lengths, check the vector
length against `len(p)` (else `ValueError "bad number of lengths"`), then
run the per-entry coercion/positivity loop, and only then construct the
dynamical object. -/
def buildIET {α : Type} [DecidableEq α] (parg : PermArg α)
    (lengths : LengthsArg α) : Except PyError (IETObj α) :=
  let resolved : Except PyError (ValidatedPermutation α) :=
    match parg with
    | PermArg.obj q =>
      if q.flips ≠ [] then
        Except.error (PyError.typeError "flips are not yet implemented")
      else if q.kind = PermKind.exchange ∧ q.reduced = false then
        Except.ok q
      else
        buildExchange (PermArg.obj q) (some false) [] none
    | PermArg.fresh a =>
      buildExchange (PermArg.fresh a) (some false) [] none
  match resolved with
  | Except.error e => Except.error e
  | Except.ok p =>
    let l := resolveLengths p lengths
    if l.length ≠ p.rows.1.length then
      Except.error (PyError.valueError "bad number of lengths")
    else
      match checkLengths l with
      | Except.error e => Except.error e
      | Except.ok _ => Except.ok ⟨p, l⟩

/-- Decidable equality of results, for evaluating the factories on concrete
inputs. -/
instance instDecEqExcept {ε σ : Type} [DecidableEq ε] [DecidableEq σ] :
    DecidableEq (Except ε σ) := fun a b =>
  match a, b with
  | Except.ok x, Except.ok y =>
    if h : x = y then isTrue (by rw [h])
    else isFalse (by intro hc; cases hc; exact h rfl)
  | Except.error x, Except.error y =>
    if h : x = y then isTrue (by rw [h])
    else isFalse (by intro hc; cases hc; exact h rfl)
  | Except.ok _, Except.error _ => isFalse (by intro hc; cases hc)
  | Except.error _, Except.ok _ => isFalse (by intro hc; cases hc)

/-- A letter whose current count in the first residual row is not one is
never touched by the admissibility loop: both of its residual counts stay
what they are.  (The loop only deletes a letter when its count in the first
row is exactly one.) -/
theorem stripSingles_count_of_ne_one {α : Type} [DecidableEq α] :
    ∀ (L b0 b1 : List α) (y : α), b0.count y ≠ 1 →
      (stripSingles L b0 b1).1.count y = b0.count y ∧
      (stripSingles L b0 b1).2.count y = b1.count y := by
  intro L
  induction L with
  | nil => intro b0 b1 y _; exact ⟨rfl, rfl⟩
  | cons x rest ih =>
    intro b0 b1 y hy
    simp only [stripSingles]
    by_cases hx : b0.count x = 1
    · rw [if_pos hx]
      have hxy : y ≠ x := by
        intro h; rw [h] at hy; exact hy hx
      have h0 : (b0.erase x).count y = b0.count y := List.count_erase_of_ne hxy b0
      have h1 : (b1.erase x).count y = b1.count y := List.count_erase_of_ne hxy b1
      have := ih (b0.erase x) (b1.erase x) y (by rw [h0]; exact hy)
      rw [h0, h1] at this
      exact this
    · rw [if_neg hx]
      exact ih b0 b1 y hy

/-- If the admissibility loop empties both residual rows, every letter of
the two rows occurs exactly once in the first row. -/
theorem stripSingles_empty_count_one {α : Type} [DecidableEq α]
    (L a0 a1 : List α) (hs : stripSingles L a0 a1 = ([], []))
    (x : α) (hx : x ∈ a0 ++ a1) : a0.count x = 1 := by
  by_contra h
  obtain ⟨h0, h1⟩ := stripSingles_count_of_ne_one L a0 a1 x h
  rw [hs] at h0 h1
  simp only [List.count_nil] at h0 h1
  rcases List.mem_append.mp hx with hm | hm
  · exact absurd ((List.count_pos_iff).mpr hm) (by omega)
  · exact absurd ((List.count_pos_iff).mpr hm) (by omega)

/-- Fresh-build success path of `buildExchange`: with a valid flip set and
every letter occurring once in each row, one of the four exchange variants
is returned. -/
theorem buildExchange_fresh_ok {α : Type} [DecidableEq α]
    (a : List α × List α) (reduction : Option Bool) (flips : List α)
    (alpha : Option (List α))
    (hf : ∀ f ∈ flips, f ∈ a.1 ++ a.2)
    (h1 : ∀ x ∈ a.1 ++ a.2, a.1.count x = 1 ∧ a.2.count x = 1) :
    ∃ v, buildExchange (PermArg.fresh a) reduction flips alpha = Except.ok v ∧
      v.kind = PermKind.exchange := by
  have hnf : ¬ ∃ f ∈ flips, f ∉ a.1 ++ a.2 := by
    push_neg
    exact hf
  have hn1 : ¬ ∃ x ∈ a.1 ++ a.2, a.1.count x ≠ 1 ∨ a.2.count x ≠ 1 := by
    push_neg
    exact h1
  simp only [buildExchange, if_neg hnf, if_neg hn1]
  by_cases hr : reduction = some true
  · rw [if_pos hr]
    by_cases hfl : flips = []
    · rw [if_pos hfl]; exact ⟨_, rfl, rfl⟩
    · rw [if_neg hfl]; exact ⟨_, rfl, rfl⟩
  · rw [if_neg hr]
    by_cases hfl : flips = []
    · rw [if_pos hfl]; exact ⟨_, rfl, rfl⟩
    · rw [if_neg hfl]; exact ⟨_, rfl, rfl⟩

/-- C1: on the fresh-build path of `buildExchange` with a valid flip set, if
some distinct letter of the combined label set does not occur exactly once
in row0 and exactly once in row1, the call raises
`ValueError "letters must appear once in each interval"` (no object is
constructed); if every distinct letter occurs exactly once in each row, a
concrete exchange variant is constructed. -/
theorem claim1_exchange_letter_multiplicity {α : Type} [DecidableEq α]
    (a : List α × List α) (reduction : Option Bool) (flips : List α)
    (alpha : Option (List α))
    (hf : ∀ f ∈ flips, f ∈ a.1 ++ a.2) :
    ((∃ x ∈ a.1 ++ a.2, a.1.count x ≠ 1 ∨ a.2.count x ≠ 1) →
      buildExchange (PermArg.fresh a) reduction flips alpha =
        Except.error
          (PyError.valueError "letters must appear once in each interval")) ∧
    ((∀ x ∈ a.1 ++ a.2, a.1.count x = 1 ∧ a.2.count x = 1) →
      ∃ v, buildExchange (PermArg.fresh a) reduction flips alpha =
        Except.ok v ∧ v.kind = PermKind.exchange) := by
  constructor
  · intro hbad
    have hnf : ¬ ∃ f ∈ flips, f ∉ a.1 ++ a.2 := by
      push_neg
      exact hf
    simp only [buildExchange, if_neg hnf, if_pos hbad]
  · intro h1
    exact buildExchange_fresh_ok a reduction flips alpha hf h1

/-- Witness for C1 at concrete inputs: `('a b c', 'c a a')` is rejected with
the letter-multiplicity error, `('a b c', 'c b a')` yields an exchange
variant. -/
theorem claim1_witness :
    (buildExchange (PermArg.fresh (["a","b","c"], ["c","a","a"]))
        (some true) ([] : List String) none =
      Except.error
        (PyError.valueError "letters must appear once in each interval")) ∧
    (∃ v, buildExchange (PermArg.fresh (["a","b","c"], ["c","b","a"]))
        none ([] : List String) none = Except.ok v ∧
      v.kind = PermKind.exchange) :=
  ⟨(claim1_exchange_letter_multiplicity (["a","b","c"], ["c","a","a"])
      (some true) [] none (by decide)).1 (by decide),
   (claim1_exchange_letter_multiplicity (["a","b","c"], ["c","b","a"])
      none [] none (by decide)).2 (by decide)⟩

/-- C2: on the fresh-build path of `buildGeneralized` with a valid flip set,
if some distinct letter does not occur exactly twice across the
concatenation of the two rows, the call raises
`ValueError "Letters must reappear twice"` and no object is constructed;
the check happens before the admissibility/variant stage, so the error is
raised whatever the rest of the structure looks like. -/
theorem claim2_generalized_letter_multiplicity {α : Type} [DecidableEq α]
    (a : List α × List α) (reduction : Option Bool) (flips : List α)
    (alpha : Option (List α))
    (hf : ∀ f ∈ flips, f ∈ a.1 ++ a.2)
    (hbad : ∃ x ∈ a.1 ++ a.2, (a.1 ++ a.2).count x ≠ 2) :
    buildGeneralized (PermArg.fresh a) reduction flips alpha =
      Except.error (PyError.valueError "Letters must reappear twice") := by
  have hnf : ¬ ∃ f ∈ flips, f ∉ a.1 ++ a.2 := by
    push_neg
    exact hf
  simp only [buildGeneralized, if_neg hnf, if_pos hbad]

/-- Witness for C2 at the spec's concrete scenario:
`('a b c a', 'd c c b', flips=['a','b'])` has `c` occurring three times. -/
theorem claim2_witness :
    buildGeneralized (PermArg.fresh (["a","b","c","a"], ["d","c","c","b"]))
        none ["a","b"] none =
      Except.error (PyError.valueError "Letters must reappear twice") :=
  claim2_generalized_letter_multiplicity (["a","b","c","a"], ["d","c","c","b"])
    none ["a","b"] none (by decide) (by decide)

/-- C9: a flip letter absent from the combined label set makes the
fresh-build path of `buildExchange` raise
`ValueError "flips contains not valid letters"` while `buildGeneralized`
raises `TypeError "The flip list is not valid"`: the same violation is
signalled through two distinct error conditions. -/
theorem claim9_invalid_flip_letters {α : Type} [DecidableEq α]
    (a : List α × List α) (reduction : Option Bool) (flips : List α)
    (alpha : Option (List α))
    (hbad : ∃ f ∈ flips, f ∉ a.1 ++ a.2) :
    buildExchange (PermArg.fresh a) reduction flips alpha =
      Except.error (PyError.valueError "flips contains not valid letters") ∧
    buildGeneralized (PermArg.fresh a) reduction flips alpha =
      Except.error (PyError.typeError "The flip list is not valid") := by
  constructor
  · simp only [buildExchange, if_pos hbad]
  · simp only [buildGeneralized, if_pos hbad]

/-- Witness for C9 at a concrete input: flip letter `b` does not occur in
the rows `('a', 'a')`. -/
theorem claim9_witness :
    buildExchange (PermArg.fresh (["a"], ["a"])) (some true) ["b"] none =
      Except.error (PyError.valueError "flips contains not valid letters") ∧
    buildGeneralized (PermArg.fresh (["a"], ["a"])) (some true) ["b"] none =
      Except.error (PyError.typeError "The flip list is not valid") :=
  claim9_invalid_flip_letters (["a"], ["a"]) (some true) ["b"] none (by decide)

/-- C3: a generalized fresh-build input that passes the twice-total check
and whose residual rows both come out empty is delegated to `buildExchange`
with the same options, so with no flips requested the two factories return
equal values. -/
theorem claim3_degenerate_delegation {α : Type} [DecidableEq α]
    (a : List α × List α) (reduction : Option Bool) (alpha : Option (List α))
    (h2 : ∀ x ∈ a.1 ++ a.2, (a.1 ++ a.2).count x = 2)
    (hs : stripSingles (a.1 ++ a.2).dedup a.1 a.2 = ([], [])) :
    buildGeneralized (PermArg.fresh a) reduction [] alpha =
      buildExchange (PermArg.fresh a) reduction [] alpha := by
  have hnf : ¬ ∃ f ∈ ([] : List α), f ∉ a.1 ++ a.2 := by simp
  have hn2 : ¬ ∃ x ∈ a.1 ++ a.2, (a.1 ++ a.2).count x ≠ 2 := by
    push_neg
    exact h2
  simp only [buildGeneralized, if_neg hnf, if_neg hn2, hs]
  simp

/-- Witness for C3 at the concrete input `('a b', 'b a')`: both residual
rows empty, each letter twice in total, and the two factories agree. -/
theorem claim3_witness :
    buildGeneralized (PermArg.fresh (["a","b"], ["b","a"])) none
        ([] : List String) none =
      buildExchange (PermArg.fresh (["a","b"], ["b","a"])) none [] none :=
  claim3_degenerate_delegation (["a","b"], ["b","a"]) none none
    (by decide) (by decide)

/-- C4: a generalized fresh-build input that passes the twice-total check
and leaves exactly one residual row empty raises
`ValueError "There is no admissible length"`; no object is constructed. -/
theorem claim4_no_admissible_length {α : Type} [DecidableEq α]
    (a : List α × List α) (reduction : Option Bool) (flips : List α)
    (alpha : Option (List α))
    (hf : ∀ f ∈ flips, f ∈ a.1 ++ a.2)
    (h2 : ∀ x ∈ a.1 ++ a.2, (a.1 ++ a.2).count x = 2)
    (hone :
      ((stripSingles (a.1 ++ a.2).dedup a.1 a.2).1 = [] ∧
        (stripSingles (a.1 ++ a.2).dedup a.1 a.2).2 ≠ []) ∨
      ((stripSingles (a.1 ++ a.2).dedup a.1 a.2).1 ≠ [] ∧
        (stripSingles (a.1 ++ a.2).dedup a.1 a.2).2 = [])) :
    buildGeneralized (PermArg.fresh a) reduction flips alpha =
      Except.error (PyError.valueError "There is no admissible length") := by
  have hnf : ¬ ∃ f ∈ flips, f ∉ a.1 ++ a.2 := by
    push_neg
    exact hf
  have hn2 : ¬ ∃ x ∈ a.1 ++ a.2, (a.1 ++ a.2).count x ≠ 2 := by
    push_neg
    exact h2
  simp only [buildGeneralized, if_neg hnf, if_neg hn2]
  rcases hone with ⟨h0, h1⟩ | ⟨h0, h1⟩
  · rw [if_neg (by rintro ⟨_, c1⟩; exact h1 c1), if_pos (Or.inl h0)]
  · rw [if_neg (by rintro ⟨c0, _⟩; exact h0 c0), if_pos (Or.inr h1)]

/-- Witness for C4 at the concrete input `('a b', 'b a c c')`: stripping the
letters `a` and `b` (once in each row) empties row0 but leaves `c c` in
row1. -/
theorem claim4_witness :
    buildGeneralized (PermArg.fresh (["a","b"], ["b","a","c","c"])) none
        ([] : List String) none =
      Except.error (PyError.valueError "There is no admissible length") :=
  claim4_no_admissible_length (["a","b"], ["b","a","c","c"]) none [] none
    (by decide) (by decide) (by decide)

/-- C10: whenever the generalized fresh-build path reaches the degenerate
delegation (valid flips, every letter twice in total, both residual rows
empty), every distinct letter occurs exactly once in each row, so the
delegated `buildExchange` call cannot hit its letter-multiplicity error and
always produces an exchange variant. -/
theorem claim10_delegation_safe {α : Type} [DecidableEq α]
    (a : List α × List α) (reduction : Option Bool) (flips : List α)
    (alpha : Option (List α))
    (hf : ∀ f ∈ flips, f ∈ a.1 ++ a.2)
    (h2 : ∀ x ∈ a.1 ++ a.2, (a.1 ++ a.2).count x = 2)
    (hs : stripSingles (a.1 ++ a.2).dedup a.1 a.2 = ([], [])) :
    (∀ x ∈ a.1 ++ a.2, a.1.count x = 1 ∧ a.2.count x = 1) ∧
    ∃ v, buildGeneralized (PermArg.fresh a) reduction flips alpha =
      Except.ok v ∧ v.kind = PermKind.exchange := by
  have hcounts : ∀ x ∈ a.1 ++ a.2, a.1.count x = 1 ∧ a.2.count x = 1 := by
    intro x hx
    have h0 : a.1.count x = 1 :=
      stripSingles_empty_count_one _ a.1 a.2 hs x hx
    have htot : a.1.count x + a.2.count x = 2 := by
      rw [← List.count_append]
      exact h2 x hx
    exact ⟨h0, by omega⟩
  refine ⟨hcounts, ?_⟩
  have hnf : ¬ ∃ f ∈ flips, f ∉ a.1 ++ a.2 := by
    push_neg
    exact hf
  have hn2 : ¬ ∃ x ∈ a.1 ++ a.2, (a.1 ++ a.2).count x ≠ 2 := by
    push_neg
    exact h2
  simp only [buildGeneralized, if_neg hnf, if_neg hn2, hs]
  exact buildExchange_fresh_ok a reduction flips alpha hf hcounts

/-- Witness for C10 at the concrete input `('a b', 'b a', flips=['a'])`. -/
theorem claim10_witness :
    (∀ x ∈ (["a","b"] ++ ["b","a"] : List String),
      (["a","b"] : List String).count x = 1 ∧
      (["b","a"] : List String).count x = 1) ∧
    ∃ v, buildGeneralized (PermArg.fresh (["a","b"], ["b","a"])) none
        ["a"] none = Except.ok v ∧ v.kind = PermKind.exchange :=
  claim10_delegation_safe (["a","b"], ["b","a"]) none ["a"] none
    (by decide) (by decide) (by decide)

/-- C5 counterexample: giving `buildExchange` an existing reduced exchange
permutation (rows `('a b', 'b a')`) with no flips and `reduced=False`
explicitly does not return a labelled (non-reduced) variant: the rebuilt
object carries `reduced = true`, because the source passes `reduced=True`
to the rebuild (`constructors.py` lines 386-389). -/
theorem claim5_counterexample :
    (buildExchange
        (PermArg.obj (ReducedPermutationIET (["a","b"], ["b","a"]) none))
        (some false) ([] : List String) none).map
      ValidatedPermutation.reduced = Except.ok true ∧
    ¬ (buildExchange
        (PermArg.obj (ReducedPermutationIET (["a","b"], ["b","a"]) none))
        (some false) ([] : List String) none).map
      ValidatedPermutation.reduced = Except.ok false := by
  constructor
  · rfl
  · intro h
    cases h

/-- C5 as amended: for an existing reduced exchange permutation with no
flips requested, `reduced=False` rebuilds an unflipped *reduced* variant
from the object's row pair (the labelled conversion is not implemented:
the rebuild is passed `reduced=True` and no alphabet); with reduction
unset or `True` the result is a value-semantics clone. -/
theorem claim5_reduced_conversion {α : Type} [DecidableEq α]
    (p : ValidatedPermutation α) (alpha : Option (List α))
    (_hk : p.kind = PermKind.exchange) (hr : p.reduced = true) :
    buildExchange (PermArg.obj p) (some false) [] alpha =
      Except.ok (ReducedPermutationIET p.rows none) ∧
    buildExchange (PermArg.obj p) none [] alpha = Except.ok p ∧
    buildExchange (PermArg.obj p) (some true) [] alpha = Except.ok p := by
  have hr' : ¬ p.reduced = false := by rw [hr]; simp
  refine ⟨?_, ?_, ?_⟩
  · simp [buildExchange, hr', PermutationIET]
  · simp [buildExchange, hr']
  · simp [buildExchange, hr']

/-- Witness for the amended C5 at the concrete reduced permutation with
rows `('a b', 'b a')`. -/
theorem claim5_witness :
    buildExchange
        (PermArg.obj (ReducedPermutationIET (["a","b"], ["b","a"]) none))
        (some false) ([] : List String) none =
      Except.ok (ReducedPermutationIET (["a","b"], ["b","a"]) none) ∧
    buildExchange
        (PermArg.obj (ReducedPermutationIET (["a","b"], ["b","a"]) none))
        none [] none =
      Except.ok (ReducedPermutationIET (["a","b"], ["b","a"]) none) ∧
    buildExchange
        (PermArg.obj (ReducedPermutationIET (["a","b"], ["b","a"]) none))
        (some true) [] none =
      Except.ok (ReducedPermutationIET (["a","b"], ["b","a"]) none) :=
  claim5_reduced_conversion
    (ReducedPermutationIET (["a","b"], ["b","a"]) none) none rfl rfl

/-- C6: `buildExchange(buildExchange(p))` with no options requested yields a
value equal to `p` for every exchange permutation object (both factory
applications are value-semantics clones), and requesting `reduced=True` on
an already-reduced object also yields a value-equal clone. -/
theorem claim6_roundtrip {α : Type} [DecidableEq α]
    (p : ValidatedPermutation α) (_hk : p.kind = PermKind.exchange) :
    (buildExchange (PermArg.obj p) none [] none).bind
      (fun q => buildExchange (PermArg.obj q) none [] none) = Except.ok p ∧
    (p.reduced = true →
      buildExchange (PermArg.obj p) (some true) [] none = Except.ok p) := by
  have hclone : ∀ q : ValidatedPermutation α,
      buildExchange (PermArg.obj q) none [] none = Except.ok q := by
    intro q
    by_cases hq : q.reduced = false
    · simp [buildExchange, hq]
    · simp [buildExchange, hq]
  constructor
  · rw [hclone p]
    exact hclone p
  · intro hr
    have hr' : ¬ p.reduced = false := by rw [hr]; simp
    simp [buildExchange, hr']

/-- Witness for C6 at a concrete labelled exchange permutation with rows
`('a b c', 'c b a')` and at a concrete reduced one. -/
theorem claim6_witness :
    ((buildExchange
        (PermArg.obj (LabelledPermutationIET (["a","b","c"], ["c","b","a"])
          none)) none ([] : List String) none).bind
      (fun q => buildExchange (PermArg.obj q) none [] none) =
      Except.ok (LabelledPermutationIET (["a","b","c"], ["c","b","a"]) none)) ∧
    (buildExchange
        (PermArg.obj (ReducedPermutationIET (["a","b","c"], ["c","b","a"])
          none)) (some true) [] none =
      Except.ok (ReducedPermutationIET (["a","b","c"], ["c","b","a"]) none)) :=
  ⟨(claim6_roundtrip
      (LabelledPermutationIET (["a","b","c"], ["c","b","a"]) none) rfl).1,
   (claim6_roundtrip
      (ReducedPermutationIET (["a","b","c"], ["c","b","a"]) none) rfl).2 rfl⟩

/-- An entry the length loop accepts: coercible to a float and strictly
positive. -/
def entryOK (e : LengthEntry) : Bool :=
  match floatOf e with
  | some y => decide (0 < y)
  | none => false

/-- The length loop accepts a vector all of whose entries are coercible and
strictly positive. -/
theorem checkLengths_ok_of_all (es : List LengthEntry)
    (h : ∀ e ∈ es, entryOK e = true) : checkLengths es = Except.ok () := by
  induction es with
  | nil => rfl
  | cons x rest ih =>
    have hx := h x (List.mem_cons_self x rest)
    unfold entryOK at hx
    cases hfx : floatOf x with
    | none => rw [hfx] at hx; cases hx
    | some y =>
      rw [hfx] at hx
      simp only [decide_eq_true_eq] at hx
      simp only [checkLengths, hfx, if_neg (not_le.mpr hx)]
      exact ih (fun e he => h e (List.mem_cons_of_mem x he))

/-- The length loop raises the coercion `TypeError` at the first
non-coercible entry. -/
theorem checkLengths_first_non_coercible (pre : List LengthEntry)
    (x : LengthEntry) (suf : List LengthEntry)
    (hpre : ∀ e ∈ pre, entryOK e = true) (hx : floatOf x = none) :
    checkLengths (pre ++ x :: suf) =
      Except.error (PyError.typeError
        ("unable to convert " ++ reprEntry x ++ " to a float")) := by
  induction pre with
  | nil =>
    simp only [List.nil_append, checkLengths, hx]
  | cons y rest ih =>
    have hy := hpre y (List.mem_cons_self y rest)
    unfold entryOK at hy
    cases hfy : floatOf y with
    | none => rw [hfy] at hy; cases hy
    | some z =>
      rw [hfy] at hy
      simp only [decide_eq_true_eq] at hy
      simp only [List.cons_append, checkLengths, hfy,
        if_neg (not_le.mpr hy)]
      exact ih (fun e he => hpre e (List.mem_cons_of_mem y he))

/-- The length loop raises the positivity `ValueError` at the first
coercible but non-positive entry. -/
theorem checkLengths_first_nonpositive (pre : List LengthEntry)
    (x : LengthEntry) (suf : List LengthEntry) (y : ℚ)
    (hpre : ∀ e ∈ pre, entryOK e = true) (hx : floatOf x = some y)
    (hy : y ≤ 0) :
    checkLengths (pre ++ x :: suf) =
      Except.error (PyError.valueError "lengths must be positive") := by
  induction pre with
  | nil =>
    simp only [List.nil_append, checkLengths, hx, if_pos hy]
  | cons z rest ih =>
    have hz := hpre z (List.mem_cons_self z rest)
    unfold entryOK at hz
    cases hfz : floatOf z with
    | none => rw [hfz] at hz; cases hz
    | some w =>
      rw [hfz] at hz
      simp only [decide_eq_true_eq] at hz
      simp only [List.cons_append, checkLengths, hfz,
        if_neg (not_le.mpr hz)]
      exact ih (fun e he => hpre e (List.mem_cons_of_mem z he))

/-- C7: for `buildIET` on an (unflipped labelled exchange) permutation and a
positional length sequence, a vector length different from the letter count
raises `ValueError "bad number of lengths"` whatever the entries contain
(the check precedes entry coercion); with the right length, a vector of
coercible strictly positive entries constructs the dynamical object, a
first bad entry that is non-coercible raises
`TypeError "unable to convert ... to a float"`, and a first bad entry that
coerces to a non-positive value raises
`ValueError "lengths must be positive"`. -/
theorem claim7_iet_length_validation {α : Type} [DecidableEq α]
    (q : ValidatedPermutation α) (es : List LengthEntry)
    (hk : q.kind = PermKind.exchange) (hr : q.reduced = false)
    (hfl : q.flips = []) :
    (es.length ≠ q.rows.1.length →
      buildIET (PermArg.obj q) (LengthsArg.seq es) =
        Except.error (PyError.valueError "bad number of lengths")) ∧
    (es.length = q.rows.1.length →
      ((∀ e ∈ es, entryOK e = true) →
        buildIET (PermArg.obj q) (LengthsArg.seq es) = Except.ok ⟨q, es⟩) ∧
      (∀ pre x suf, es = pre ++ x :: suf →
        (∀ e ∈ pre, entryOK e = true) →
        (floatOf x = none →
          buildIET (PermArg.obj q) (LengthsArg.seq es) =
            Except.error (PyError.typeError
              ("unable to convert " ++ reprEntry x ++ " to a float"))) ∧
        (∀ y, floatOf x = some y → y ≤ 0 →
          buildIET (PermArg.obj q) (LengthsArg.seq es) =
            Except.error
              (PyError.valueError "lengths must be positive")))) := by
  have hresolved : buildIET (PermArg.obj q) (LengthsArg.seq es) =
      (if es.length ≠ q.rows.1.length then
        Except.error (PyError.valueError "bad number of lengths")
      else
        match checkLengths es with
        | Except.error e => Except.error e
        | Except.ok _ =>
          Except.ok ⟨q, es⟩) := by
    simp only [buildIET, resolveLengths, hfl, hk, hr]
    simp
  constructor
  · intro hlen
    rw [hresolved, if_pos hlen]
  · intro hlen
    constructor
    · intro hgood
      rw [hresolved, if_neg (by omega), checkLengths_ok_of_all es hgood]
    · intro pre x suf hsplit hpre
      constructor
      · intro hx
        rw [hresolved, if_neg (by omega), hsplit,
          checkLengths_first_non_coercible pre x suf hpre hx]
      · intro y hx hy
        rw [hresolved, if_neg (by omega), hsplit,
          checkLengths_first_nonpositive pre x suf y hpre hx hy]

/-- Witness for C7 on the permutation `('a b c', 'c b a')`: two lengths for
three letters fail (even with a non-coercible entry present, showing the
length check comes first), three positive lengths succeed, a non-coercible
second entry raises the conversion `TypeError`, and a negative second entry
raises the positivity `ValueError`. -/
theorem claim7_witness :
    (buildIET (PermArg.obj (LabelledPermutationIET
        ((["a","b","c"] : List String), ["c","b","a"]) none))
      (LengthsArg.seq [LengthEntry.num 1, LengthEntry.nonNumeric "rho"]) =
      Except.error (PyError.valueError "bad number of lengths")) ∧
    (buildIET (PermArg.obj (LabelledPermutationIET
        ((["a","b","c"] : List String), ["c","b","a"]) none))
      (LengthsArg.seq [LengthEntry.num 1, LengthEntry.num 2,
        LengthEntry.num 3]) =
      Except.ok ⟨LabelledPermutationIET (["a","b","c"], ["c","b","a"]) none,
        [LengthEntry.num 1, LengthEntry.num 2, LengthEntry.num 3]⟩) ∧
    (buildIET (PermArg.obj (LabelledPermutationIET
        ((["a","b","c"] : List String), ["c","b","a"]) none))
      (LengthsArg.seq [LengthEntry.num 1, LengthEntry.nonNumeric "rho",
        LengthEntry.num 2]) =
      Except.error (PyError.typeError "unable to convert 'rho' to a float")) ∧
    (buildIET (PermArg.obj (LabelledPermutationIET
        ((["a","b","c"] : List String), ["c","b","a"]) none))
      (LengthsArg.seq [LengthEntry.num 1, LengthEntry.num (-2),
        LengthEntry.num 2]) =
      Except.error (PyError.valueError "lengths must be positive")) :=
  ⟨(claim7_iet_length_validation
      (LabelledPermutationIET (["a","b","c"], ["c","b","a"]) none)
      [LengthEntry.num 1, LengthEntry.nonNumeric "rho"]
      rfl rfl rfl).1 (by decide),
   ((claim7_iet_length_validation
      (LabelledPermutationIET (["a","b","c"], ["c","b","a"]) none)
      [LengthEntry.num 1, LengthEntry.num 2, LengthEntry.num 3]
      rfl rfl rfl).2 (by decide)).1 (by decide),
   (((claim7_iet_length_validation
      (LabelledPermutationIET (["a","b","c"], ["c","b","a"]) none)
      [LengthEntry.num 1, LengthEntry.nonNumeric "rho", LengthEntry.num 2]
      rfl rfl rfl).2 (by decide)).2
      [LengthEntry.num 1] (LengthEntry.nonNumeric "rho") [LengthEntry.num 2]
      rfl (by decide)).1 rfl,
   (((claim7_iet_length_validation
      (LabelledPermutationIET (["a","b","c"], ["c","b","a"]) none)
      [LengthEntry.num 1, LengthEntry.num (-2), LengthEntry.num 2]
      rfl rfl rfl).2 (by decide)).2
      [LengthEntry.num 1] (LengthEntry.num (-2)) [LengthEntry.num 2]
      rfl (by decide)).2 (-2) rfl (by norm_num)⟩

/-- C8: a single-string input to the normalizer containing exactly two
lines (splitting on the line separator) yields the two rows obtained by
splitting each line on whitespace; any other line count raises
`ValueError "your chain must contain two lines"`. -/
theorem claim8_string_normalization :
    (∀ s l0 l1, pySplitNL s = [l0, l1] →
      two_lists (TwoArg.ofString s) =
        Except.ok (pySplitWS l0, pySplitWS l1)) ∧
    (∀ s, (pySplitNL s).length ≠ 2 →
      two_lists (TwoArg.ofString s) =
        Except.error
          (PyError.valueError "your chain must contain two lines")) := by
  constructor
  · intro s l0 l1 h
    simp only [two_lists, h]
  · intro s h
    cases hnl : pySplitNL s with
    | nil => simp only [two_lists, hnl]
    | cons x t =>
      cases t with
      | nil => simp only [two_lists, hnl]
      | cons y t2 =>
        cases t2 with
        | nil =>
          rw [hnl] at h
          simp at h
        | cons z t3 => simp only [two_lists, hnl]

/-- Witness for C8: `"a1 a2\nb1 b2"` normalizes to the rows
`(['a1','a2'], ['b1','b2'])`; the one-line string `"a b"` is rejected. -/
theorem claim8_witness :
    two_lists (TwoArg.ofString "a1 a2\nb1 b2") =
      Except.ok ((["a1","a2"] : List String), (["b1","b2"] : List String)) ∧
    two_lists (TwoArg.ofString "a b") =
      Except.error (PyError.valueError "your chain must contain two lines") :=
  ⟨by
    have := claim8_string_normalization.1 "a1 a2\nb1 b2" "a1 a2" "b1 b2"
      (by decide)
    rw [this]
    decide,
   claim8_string_normalization.2 "a b" (by decide)⟩
